import Mathlib

/-!
Verification of the session lifecycle manager and real-time notification
layer of the salescout repository.

The embedding below translates `src/wa_bot/src/services/whatsapp.ts`
(the `WhatsAppService` class), the WebSocket message handler of
`src/wa_bot/src/websocket/websocketServer.ts`, and the observer-side
reconnection logic of `src/frontend/src/components/AccountCard.tsx`
into executable Lean definitions.

Modelling conventions:
* The mutable `WhatsAppService` instance is a `ServiceState` record that is
  threaded explicitly through each handler.
* JavaScript timers (`setTimeout` / `clearTimeout`) are modelled by an
  allocation counter `nextTimerId` and a table `activeTimers` of armed
  timers; `clearTimeout` removes an entry, and a timer callback can run
  only while its entry is still armed (`fireQrTimer`).
* The browser-automation `Client` objects are identified by numeric adapter
  ids; `destroy()` invocations are recorded in the `destroyed` log.
* The durable store is an external collaborator (a document store behind a
  find/upsert contract); successful upserts are recorded in the `dbWrites`
  log, and each operation that awaits a write takes a `dbOk : Bool`
  parameter deciding whether that write succeeds or throws.
* `client.initialize()` is likewise external; callers take an
  `initOk : Bool` parameter.
* WebSocket sends are recorded in the `sent` log; a send is delivered only
  when the session has a socket whose id is in `openConns` (readyState
  OPEN), mirroring the guard in `sendToSession`.
* `TypeScript` object spread `\x7b...session, ...updates\x7d` is modelled by
  `applyUpdates`: an update field is `none` when the key is absent from the
  update object, and `some v` when the key is present with value `v`
  (`v` itself is an `Option` for fields that can be set to `undefined`).
-/

/-- Session status, the `status` field of the in-memory `Session` interface. -/
inductive Status where
  | pending
  | authenticated
  | ready
deriving Repr, DecidableEq

/-- In-memory session record (`interface Session` in whatsapp.ts).
`ws` is the observer socket id (`null` for restored sessions), `client` the
numeric id of the session's automation adapter, and `clientId` the LocalAuth
clientId string carried by that adapter. -/
structure Session where
  id : String
  ws : Option Nat
  client : Nat
  clientId : String
  status : Status
  phoneNumber : Option String
  qrCode : Option String
  lastActive : Nat
  qrGeneratedAt : Option Nat
  qrTimeout : Option Nat
deriving Repr, DecidableEq

/-- The update object passed to `updateSession` (a `Partial<Session>`):
`none` means the key is absent, `some v` that the key is present with
value `v`.  The source never passes `id`, `ws` or `client` keys. -/
structure SessionUpdates where
  status : Option Status := none
  phoneNumber : Option (Option String) := none
  qrCode : Option (Option String) := none
  lastActive : Option Nat := none
  qrGeneratedAt : Option (Option Nat) := none
  qrTimeout : Option (Option (Nat)) := none
deriving Repr, DecidableEq

/-- Outbound WebSocket messages (the JSON objects passed to `ws.send`),
discriminated by their `action` field. -/
inductive OutMsg where
  | qrMsg (sessionId qrCode : String)
  | qrExpired (sessionId : String)
  | authenticatedMsg (sessionId : String) (phoneNumber : Option String) (serializedId : String)
  | disconnectedMsg (sessionId reason : String)
  | authFailureMsg (sessionId message : String)
  | stateChangeMsg (sessionId state : String)
  | messageMsg (sessionId sender body : String)
  | sessionCreated (sessionId : String)
  | errorMsg (message : String)
deriving Repr, DecidableEq

/-- Document written to the durable store by `persistSession`. -/
structure DbRecord where
  sessionId : String
  clientId : String
  status : Status
  phoneNumber : Option String
  qrCode : Option String
  lastActive : Nat
deriving Repr, DecidableEq

/-- The whole mutable state of a `WhatsAppService` instance, together with
the logs that record its interactions with external collaborators. -/
structure ServiceState where
  /-- `this.sessions` -/
  sessions : List Session
  /-- `this.client` (the service-wide field, overwritten by `setupEventListeners`) -/
  client : Option Nat
  /-- allocator for adapter ids (each `new Client(...)`) -/
  nextClientId : Nat
  /-- allocator for timer ids (each `setTimeout`) -/
  nextTimerId : Nat
  /-- armed timers: (timer id, session id whose QR the callback clears) -/
  activeTimers : List (Nat × String)
  /-- log of `client.destroy()` invocations, by adapter id -/
  destroyed : List Nat
  /-- log of successful durable upserts -/
  dbWrites : List DbRecord
  /-- whether `this.onSessionUpdate` is set (non-null) -/
  hookRegistered : Bool
  /-- number of invocations of the registered `onSessionUpdate` hook -/
  notifyCount : Nat
  /-- log of delivered WebSocket sends: (session id, message) -/
  sent : List (String × OutMsg)
  /-- socket ids whose readyState is OPEN -/
  openConns : List Nat
deriving Repr, DecidableEq

/-- `this.sessions.find(s => s.id === sessionId)`. -/
def findSession (st : ServiceState) (sid : String) : Option Session :=
  st.sessions.find? (fun s => s.id == sid)

/-- Object spread `\x7b ...session, ...updates \x7d` for the keys the source
ever places in an update object. -/
def applyUpdates (s : Session) (u : SessionUpdates) : Session :=
  { s with
    status := u.status.getD s.status
    phoneNumber := match u.phoneNumber with | none => s.phoneNumber | some v => v
    qrCode := match u.qrCode with | none => s.qrCode | some v => v
    lastActive := u.lastActive.getD s.lastActive
    qrGeneratedAt := match u.qrGeneratedAt with | none => s.qrGeneratedAt | some v => v
    qrTimeout := match u.qrTimeout with | none => s.qrTimeout | some v => v }

/-- `notifySessionUpdate`: invokes `this.onSessionUpdate` when registered. -/
def notifySessionUpdate (st : ServiceState) : ServiceState :=
  if st.hookRegistered then { st with notifyCount := st.notifyCount + 1 } else st

/-- `updateSession(sessionId, updates)`: structural merge on the matching
entry of `this.sessions`, then `notifySessionUpdate()`. -/
def updateSession (st : ServiceState) (sid : String) (u : SessionUpdates) : ServiceState :=
  notifySessionUpdate
    { st with
      sessions := st.sessions.map (fun s => if s.id == sid then applyUpdates s u else s) }

/-- The guard of `sendToSession`: the session exists and its socket is
present with readyState OPEN. -/
def deliverable (st : ServiceState) (sid : String) : Bool :=
  match findSession st sid with
  | none => false
  | some s =>
    match s.ws with
    | none => false
    | some w => st.openConns.contains w

/-- `sendToSession(sessionId, data)`: delivered only when the guard holds,
otherwise an early return. -/
def sendToSession (st : ServiceState) (sid : String) (msg : OutMsg) : ServiceState :=
  if deliverable st sid then { st with sent := st.sent ++ [(sid, msg)] } else st

/-- `safeDestroyClient()`: destroys `this.client` when set (the destroy call
is recorded even if it throws; `finally` nulls the field). -/
def safeDestroyClient (st : ServiceState) : ServiceState :=
  match st.client with
  | some c => { st with destroyed := st.destroyed ++ [c], client := none }
  | none => st

/-- `cleanupSession(sessionId)`: clears the session's QR timer, removes the
session from the table, and destroys `this.client` when the table became
empty. -/
def cleanupSession (st : ServiceState) (sid : String) : ServiceState :=
  let st1 :=
    match (findSession st sid).bind Session.qrTimeout with
    | some tid => { st with activeTimers := st.activeTimers.filter (fun p => p.1 != tid) }
    | none => st
  let st2 := { st1 with sessions := st1.sessions.filter (fun s => s.id != sid) }
  if st2.sessions.isEmpty then safeDestroyClient st2 else st2

/-- A successful `DBSession.findOneAndUpdate(..., upsert)`: recorded as one
write in the log (the store's internal merge semantics are the external
document store's own). -/
def dbWrite (st : ServiceState) (r : DbRecord) : ServiceState :=
  { st with dbWrites := st.dbWrites ++ [r] }

/-- `persistSession(sessionData)`: returns early (without writing) when the
session is not in `this.sessions`; otherwise performs the durable upsert,
which either succeeds (`dbOk = true`) or throws (`none`), the error being
rethrown to the caller. -/
def persistSession (dbOk : Bool) (st : ServiceState) (r : DbRecord) : Option ServiceState :=
  match findSession st r.sessionId with
  | none => some st
  | some _ => if dbOk then some (dbWrite st r) else none

/-- `handleQrCode(sessionId, client, qr)`: cancels the previous QR timer,
arms a fresh 40s timer, merges the QR into the session, then persists and
notifies the observer (a persistence failure is caught and only logged,
skipping the send). -/
def handleQrCode (dbOk : Bool) (st : ServiceState) (sid qr : String) (now : Nat) :
    ServiceState :=
  match findSession st sid with
  | none => st
  | some session =>
    let st1 :=
      match session.qrTimeout with
      | some tid => { st with activeTimers := st.activeTimers.filter (fun p => p.1 != tid) }
      | none => st
    let tid := st1.nextTimerId
    let st2 := { st1 with
      nextTimerId := tid + 1
      activeTimers := st1.activeTimers ++ [(tid, sid)] }
    let st3 := updateSession st2 sid
      { qrCode := some (some qr)
        qrGeneratedAt := some (some now)
        qrTimeout := some (some tid)
        lastActive := some now
        status := some .pending }
    match persistSession dbOk st3
      { sessionId := sid, clientId := session.clientId, status := .pending
        phoneNumber := none, qrCode := some qr, lastActive := now } with
    | some st4 => sendToSession st4 sid (.qrMsg sid qr)
    | none => st3

/-- The callback armed by `handleQrCode`'s `setTimeout`: it can run only
while its timer is still armed; it clears the session's QR fields and sends
a qr_expired notification. -/
def fireQrTimer (st : ServiceState) (tid : Nat) : ServiceState :=
  match st.activeTimers.find? (fun p => p.1 == tid) with
  | none => st
  | some p =>
    let st1 := { st with activeTimers := st.activeTimers.filter (fun q => q.1 != tid) }
    let st2 := updateSession st1 p.2 { qrCode := some none, qrTimeout := some none }
    sendToSession st2 p.2 (.qrExpired p.2)

/-- `handleAuthenticated(sessionId, client, session)`: awaits the durable
write first; only if it succeeds does the in-memory update and the
notification run (the catch block only logs). -/
def handleAuthenticated (dbOk : Bool) (st : ServiceState) (sid : String)
    (phone : Option String) (serialized : String) (now : Nat) : ServiceState :=
  match persistSession dbOk st
    { sessionId := sid, clientId := "client-id", status := .authenticated
      phoneNumber := phone, qrCode := none, lastActive := now } with
  | none => st
  | some st1 =>
    let st2 := updateSession st1 sid
      { status := some .authenticated, phoneNumber := some phone, lastActive := some now }
    sendToSession st2 sid (.authenticatedMsg sid phone serialized)

/-- `handleReady(sessionId, client)`: awaits the durable write with no
try/catch, so a failed write aborts the handler before the in-memory
update; on success it updates the session and notifies the hook again. -/
def handleReady (dbOk : Bool) (st : ServiceState) (sid : String)
    (phone : Option String) (now : Nat) : ServiceState :=
  match persistSession dbOk st
    { sessionId := sid, clientId := "client-id", status := .ready
      phoneNumber := phone, qrCode := none, lastActive := now } with
  | none => st
  | some st1 =>
    let st2 := updateSession st1 sid
      { status := some .ready, phoneNumber := some phone, lastActive := some now }
    notifySessionUpdate st2

/-- `handleDisconnected(sessionId, reason)`: notifies the observer, then
`cleanupSession`. -/
def handleDisconnected (st : ServiceState) (sid reason : String) : ServiceState :=
  cleanupSession (sendToSession st sid (.disconnectedMsg sid reason)) sid

/-- `handleAuthFailure(sessionId, msg)`: only notifies the observer. -/
def handleAuthFailure (st : ServiceState) (sid msg : String) : ServiceState :=
  sendToSession st sid (.authFailureMsg sid msg)

/-- The session id minted by `createNewSession`: `session_` followed by
`Date.now()` in decimal. -/
def sessionIdOf (now : Nat) : String :=
  "session_" ++ toString now

/-- `createNewSession(ws)` at timestamp `now`: mints the id, provisions an
adapter, pushes the pending session, registers listeners (which set
`this.client`), then awaits `initialize` and the pending persist; on either
failure the catch block runs `cleanupSession` and rethrows (`none`). -/
def createNewSession (initOk dbOk : Bool) (st : ServiceState) (w : Nat) (now : Nat) :
    ServiceState × Option String :=
  let sessionId := sessionIdOf now
  let clientId := "client_" ++ sessionId
  let c := st.nextClientId
  let newSession : Session :=
    { id := sessionId, ws := some w, client := c, clientId := clientId
      status := .pending, phoneNumber := none, qrCode := none
      lastActive := now, qrGeneratedAt := none, qrTimeout := none }
  let st1 := { st with
    sessions := st.sessions ++ [newSession]
    nextClientId := c + 1
    client := some c }
  if initOk then
    match persistSession dbOk st1
      { sessionId := sessionId, clientId := clientId, status := .pending
        phoneNumber := none, qrCode := none, lastActive := now } with
    | some st2 => (st2, some sessionId)
    | none => (cleanupSession st1 sessionId, none)
  else
    (cleanupSession st1 sessionId, none)

/-! WebSocket server (`websocketServer.ts`): the per-connection message
handler. An inbound frame either fails `JSON.parse` (`malformed`) or parses
to an object whose `action` field drives the dispatch. -/

/-- An inbound WebSocket frame as seen by the `message` handler. -/
inductive Inbound where
  | malformed
  | parsed (action : String)
deriving Repr, DecidableEq

/-- Result of running the `message` handler: the service state afterwards,
the frames sent (socket id, message), and the sockets the handler closed. -/
structure WsResult where
  state : ServiceState
  replies : List (Nat × OutMsg)
  closed : List Nat
deriving Repr, DecidableEq

/-- `sendError(ws, message)`: sent only when the socket is OPEN. -/
def sendErrorTo (st : ServiceState) (w : Nat) (m : String) : List (Nat × OutMsg) :=
  if w ∈ st.openConns then [(w, .errorMsg m)] else []

/-- `handleCreateSession(ws, message)`. -/
def handleCreateSession (initOk dbOk : Bool) (st : ServiceState) (w : Nat) (now : Nat) :
    WsResult :=
  match createNewSession initOk dbOk st w now with
  | (st1, some sid) => ⟨st1, [(w, .sessionCreated sid)], []⟩
  | (st1, none) => ⟨st1, sendErrorTo st1 w "Failed to create WhatsApp session", []⟩

/-- The `ws.on("message")` handler of websocketServer.ts: parse, dispatch on
`action`, answer unknown actions and parse failures with an error event to
the sender, never closing the connection. -/
def wsOnMessage (initOk dbOk : Bool) (st : ServiceState) (w : Nat) (data : Inbound)
    (now : Nat) : WsResult :=
  match data with
  | .malformed => ⟨st, sendErrorTo st w "Invalid message format", []⟩
  | .parsed action =>
    if action == "create_session" then handleCreateSession initOk dbOk st w now
    else ⟨st, sendErrorTo st w "Unknown action", []⟩

/-! Observer-side reconnection (`AccountCard.tsx`, `connectWebSocket`).
Each call to `connectWebSocket` creates one socket together with a fresh
closure-local counter (`let reconnectAttempts = 0`); the socket's `onclose`
handler reads and increments that counter. -/

/-- What one `socket.onclose` invocation does, given the closure-local
`reconnectAttempts` value it observes: schedule a reconnect after
`min(5000 * 2^attempts, 30000)` ms (incrementing the counter), or — once
the counter reaches `maxReconnectAttempts = 5` — emit the terminal
"Max reconnection attempts reached" signal. -/
inductive CloseOutcome where
  | reconnect (delayMs : Nat) (newAttempts : Nat)
  | giveUp
deriving Repr, DecidableEq

/-- `maxReconnectAttempts` constant. -/
def maxReconnectAttempts : Nat := 5

/-- The body of `socket.onclose` as coded. -/
def onSocketClose (reconnectAttempts : Nat) : CloseOutcome :=
  if reconnectAttempts < maxReconnectAttempts then
    .reconnect (min (5000 * 2 ^ reconnectAttempts) 30000) (reconnectAttempts + 1)
  else
    .giveUp

/-- The counter value a freshly-created closure starts from:
`connectWebSocket` runs `let reconnectAttempts = 0` on every call. -/
def connectAttemptsInit : Nat := 0

/-- A streak of `n` consecutive connection failures: every close event is
handled by the closure created by the latest `connectWebSocket` call, whose
counter was re-initialized, and each reconnect goes through
`setTimeout(connectWebSocket, delay)`, creating the next fresh closure. -/
def simulateCloses : Nat → List CloseOutcome
  | 0 => []
  | n + 1 => onSocketClose connectAttemptsInit :: simulateCloses n

/-! ### Frame lemmas for the primitive operations -/

@[simp]
theorem applyUpdates_id (s : Session) (u : SessionUpdates) : (applyUpdates s u).id = s.id :=
  rfl

@[simp]
theorem applyUpdates_ws (s : Session) (u : SessionUpdates) : (applyUpdates s u).ws = s.ws :=
  rfl

@[simp]
theorem applyUpdates_client (s : Session) (u : SessionUpdates) :
    (applyUpdates s u).client = s.client :=
  rfl

@[simp]
theorem applyUpdates_clientId (s : Session) (u : SessionUpdates) :
    (applyUpdates s u).clientId = s.clientId :=
  rfl

@[simp]
theorem notifySessionUpdate_sessions (st : ServiceState) :
    (notifySessionUpdate st).sessions = st.sessions := by
  unfold notifySessionUpdate; split <;> rfl

@[simp]
theorem notifySessionUpdate_activeTimers (st : ServiceState) :
    (notifySessionUpdate st).activeTimers = st.activeTimers := by
  unfold notifySessionUpdate; split <;> rfl

@[simp]
theorem notifySessionUpdate_nextTimerId (st : ServiceState) :
    (notifySessionUpdate st).nextTimerId = st.nextTimerId := by
  unfold notifySessionUpdate; split <;> rfl

@[simp]
theorem notifySessionUpdate_client (st : ServiceState) :
    (notifySessionUpdate st).client = st.client := by
  unfold notifySessionUpdate; split <;> rfl

@[simp]
theorem notifySessionUpdate_destroyed (st : ServiceState) :
    (notifySessionUpdate st).destroyed = st.destroyed := by
  unfold notifySessionUpdate; split <;> rfl

@[simp]
theorem notifySessionUpdate_openConns (st : ServiceState) :
    (notifySessionUpdate st).openConns = st.openConns := by
  unfold notifySessionUpdate; split <;> rfl

@[simp]
theorem sendToSession_sessions (st : ServiceState) (sid : String) (m : OutMsg) :
    (sendToSession st sid m).sessions = st.sessions := by
  unfold sendToSession; split <;> rfl

@[simp]
theorem sendToSession_activeTimers (st : ServiceState) (sid : String) (m : OutMsg) :
    (sendToSession st sid m).activeTimers = st.activeTimers := by
  unfold sendToSession; split <;> rfl

@[simp]
theorem sendToSession_nextTimerId (st : ServiceState) (sid : String) (m : OutMsg) :
    (sendToSession st sid m).nextTimerId = st.nextTimerId := by
  unfold sendToSession; split <;> rfl

@[simp]
theorem sendToSession_client (st : ServiceState) (sid : String) (m : OutMsg) :
    (sendToSession st sid m).client = st.client := by
  unfold sendToSession; split <;> rfl

@[simp]
theorem sendToSession_destroyed (st : ServiceState) (sid : String) (m : OutMsg) :
    (sendToSession st sid m).destroyed = st.destroyed := by
  unfold sendToSession; split <;> rfl

@[simp]
theorem sendToSession_notifyCount (st : ServiceState) (sid : String) (m : OutMsg) :
    (sendToSession st sid m).notifyCount = st.notifyCount := by
  unfold sendToSession; split <;> rfl

@[simp]
theorem sendToSession_openConns (st : ServiceState) (sid : String) (m : OutMsg) :
    (sendToSession st sid m).openConns = st.openConns := by
  unfold sendToSession; split <;> rfl

@[simp]
theorem dbWrite_sessions (st : ServiceState) (r : DbRecord) :
    (dbWrite st r).sessions = st.sessions :=
  rfl

@[simp]
theorem dbWrite_activeTimers (st : ServiceState) (r : DbRecord) :
    (dbWrite st r).activeTimers = st.activeTimers :=
  rfl

@[simp]
theorem dbWrite_nextTimerId (st : ServiceState) (r : DbRecord) :
    (dbWrite st r).nextTimerId = st.nextTimerId :=
  rfl

@[simp]
theorem safeDestroyClient_sessions (st : ServiceState) :
    (safeDestroyClient st).sessions = st.sessions := by
  unfold safeDestroyClient; split <;> rfl

theorem updateSession_sessions (st : ServiceState) (sid : String) (u : SessionUpdates) :
    (updateSession st sid u).sessions
      = st.sessions.map (fun s => if s.id == sid then applyUpdates s u else s) := by
  unfold updateSession
  rw [notifySessionUpdate_sessions]

@[simp]
theorem updateSession_activeTimers (st : ServiceState) (sid : String) (u : SessionUpdates) :
    (updateSession st sid u).activeTimers = st.activeTimers := by
  unfold updateSession
  rw [notifySessionUpdate_activeTimers]

@[simp]
theorem updateSession_nextTimerId (st : ServiceState) (sid : String) (u : SessionUpdates) :
    (updateSession st sid u).nextTimerId = st.nextTimerId := by
  unfold updateSession
  rw [notifySessionUpdate_nextTimerId]

@[simp]
theorem updateSession_client (st : ServiceState) (sid : String) (u : SessionUpdates) :
    (updateSession st sid u).client = st.client := by
  unfold updateSession
  rw [notifySessionUpdate_client]

@[simp]
theorem updateSession_destroyed (st : ServiceState) (sid : String) (u : SessionUpdates) :
    (updateSession st sid u).destroyed = st.destroyed := by
  unfold updateSession
  rw [notifySessionUpdate_destroyed]

@[simp]
theorem updateSession_openConns (st : ServiceState) (sid : String) (u : SessionUpdates) :
    (updateSession st sid u).openConns = st.openConns := by
  unfold updateSession
  rw [notifySessionUpdate_openConns]

theorem sessions_map_find? (l : List Session) (sid : String) (u : SessionUpdates) :
    (l.map (fun s => if s.id == sid then applyUpdates s u else s)).find?
        (fun s => s.id == sid)
      = (l.find? (fun s => s.id == sid)).map (fun s => applyUpdates s u) := by
  induction l with
  | nil => rfl
  | cons a l ih =>
    by_cases h : (a.id == sid) = true
    · have h2 : ((applyUpdates a u).id == sid) = true := by rw [applyUpdates_id]; exact h
      simp only [List.map_cons, if_pos h, List.find?_cons, h2, h, Option.map_some]
      simp [h2, h]
    · have hb : (a.id == sid) = false := by simpa using h
      simp only [List.map_cons, if_neg h, List.find?_cons, hb, ih]
      simp [hb]

theorem findSession_updateSession (st : ServiceState) (sid : String) (u : SessionUpdates) :
    findSession (updateSession st sid u) sid
      = (findSession st sid).map (fun s => applyUpdates s u) := by
  unfold findSession
  rw [updateSession_sessions, sessions_map_find?]

@[simp]
theorem findSession_sendToSession (st : ServiceState) (sid' sid : String) (m : OutMsg) :
    findSession (sendToSession st sid' m) sid = findSession st sid := by
  unfold findSession
  rw [sendToSession_sessions]

theorem persistSession_found_true (st : ServiceState) (r : DbRecord) (s : Session)
    (h : findSession st r.sessionId = some s) :
    persistSession true st r = some (dbWrite st r) := by
  unfold persistSession
  rw [h]
  rfl

theorem persistSession_found_false (st : ServiceState) (r : DbRecord) (s : Session)
    (h : findSession st r.sessionId = some s) :
    persistSession false st r = none := by
  unfold persistSession
  rw [h]
  rfl

/-! ### Injectivity of the decimal printing used by the session id

`createNewSession` mints ids of the form `session_` + decimal `Date.now()`;
the amended uniqueness claim needs that `Nat` decimal printing is
injective, which we prove from the core `Nat.toDigitsCore` definition. -/

/-- Numeric value of a decimal digit character. -/
def decDigitVal (c : Char) : Nat := c.toNat - 48

/-- Value of a most-significant-digit-first decimal digit list. -/
def digitsVal (l : List Char) : Nat := l.foldl (fun a c => 10 * a + decDigitVal c) 0

theorem decDigitVal_digitChar (m : Nat) (h : m < 10) :
    decDigitVal (Nat.digitChar m) = m := by
  interval_cases m <;> rfl

theorem toDigitsCore_shift (n : Nat) : ∀ fuel ds, n < fuel →
    Nat.toDigitsCore 10 fuel n ds = Nat.toDigitsCore 10 (n + 1) n [] ++ ds := by
  induction n using Nat.strong_induction_on with
  | _ n ih =>
    intro fuel ds hf
    match fuel, hf with
    | fuel + 1, hf =>
      rw [show Nat.toDigitsCore 10 (fuel + 1) n ds
            = if n / 10 = 0 then Nat.digitChar (n % 10) :: ds
              else Nat.toDigitsCore 10 fuel (n / 10) (Nat.digitChar (n % 10) :: ds) from rfl]
      rw [show Nat.toDigitsCore 10 (n + 1) n []
            = if n / 10 = 0 then [Nat.digitChar (n % 10)]
              else Nat.toDigitsCore 10 n (n / 10) [Nat.digitChar (n % 10)] from rfl]
      by_cases h0 : n / 10 = 0
      · simp [h0]
      · simp only [if_neg h0]
        have hn0 : 0 < n := Nat.pos_of_ne_zero (fun hz => h0 (by simp [hz]))
        have hdiv : n / 10 < n := Nat.div_lt_self hn0 (by norm_num)
        have h1 : n / 10 < fuel := lt_of_lt_of_le hdiv (Nat.lt_succ_iff.mp hf)
        rw [ih (n / 10) hdiv fuel (Nat.digitChar (n % 10) :: ds) h1,
          ih (n / 10) hdiv n [Nat.digitChar (n % 10)] hdiv]
        simp

theorem digitsVal_append_singleton (l : List Char) (c : Char) :
    digitsVal (l ++ [c]) = 10 * digitsVal l + decDigitVal c := by
  unfold digitsVal
  rw [List.foldl_append]
  rfl

theorem digitsVal_toDigits (n : Nat) : digitsVal (Nat.toDigits 10 n) = n := by
  induction n using Nat.strong_induction_on with
  | _ n ih =>
    rw [show Nat.toDigits 10 n
          = if n / 10 = 0 then [Nat.digitChar (n % 10)]
            else Nat.toDigitsCore 10 n (n / 10) [Nat.digitChar (n % 10)] from rfl]
    by_cases h0 : n / 10 = 0
    · have hlt : n < 10 := (Nat.div_eq_zero_iff (by norm_num)).mp h0
      simp only [if_pos h0]
      show 10 * 0 + decDigitVal (Nat.digitChar (n % 10)) = n
      rw [Nat.mod_eq_of_lt hlt, decDigitVal_digitChar n hlt]
      omega
    · simp only [if_neg h0]
      have hn0 : 0 < n := Nat.pos_of_ne_zero (fun hz => h0 (by simp [hz]))
      have hdiv : n / 10 < n := Nat.div_lt_self hn0 (by norm_num)
      rw [toDigitsCore_shift (n / 10) n [Nat.digitChar (n % 10)] hdiv]
      rw [show Nat.toDigitsCore 10 (n / 10 + 1) (n / 10) [] = Nat.toDigits 10 (n / 10) from rfl]
      rw [digitsVal_append_singleton, ih (n / 10) hdiv,
        decDigitVal_digitChar _ (Nat.mod_lt n (by norm_num))]
      exact Nat.div_add_mod n 10

theorem natToString_inj (m n : Nat) (h : toString m = toString n) : m = n := by
  have hl : Nat.toDigits 10 m = Nat.toDigits 10 n := congrArg String.data h
  have h2 := congrArg digitsVal hl
  rwa [digitsVal_toDigits, digitsVal_toDigits] at h2

theorem sessionIdOf_inj (t1 t2 : Nat) (h : sessionIdOf t1 = sessionIdOf t2) : t1 = t2 := by
  unfold sessionIdOf at h
  have hd : "session_".data ++ (toString t1).data = "session_".data ++ (toString t2).data := by
    have h3 := congrArg String.data h
    simpa [String.data_append] using h3
  exact natToString_inj _ _ (String.ext (List.append_cancel_left hd))

/-! ### Small generic helpers -/

theorem all_filter_self {α : Type} (l : List α) (p : α → Bool) :
    ((l.filter p).all p) = true := by
  rw [List.all_eq_true]
  intro x hx
  exact List.of_mem_filter hx

theorem findSession_sessionsEq (st' st : ServiceState) (sid : String)
    (h : st'.sessions = st.sessions) : findSession st' sid = findSession st sid := by
  unfold findSession
  rw [h]

theorem findSession_mk (l : List Session) (c : Option Nat) (nc nt : Nat)
    (timers : List (Nat × String)) (d : List Nat) (db : List DbRecord) (hk : Bool)
    (n : Nat) (snt : List (String × OutMsg)) (oc : List Nat) (sid : String) :
    findSession (ServiceState.mk l c nc nt timers d db hk n snt oc) sid
      = l.find? (fun x => x.id == sid) :=
  rfl

@[simp]
theorem findSession_dbWrite (st : ServiceState) (r : DbRecord) (sid : String) :
    findSession (dbWrite st r) sid = findSession st sid :=
  rfl

/-- Characterization of one `handleQrCode` step on a present session: the
timer allocator advances by one, the session's previous QR timer (when any)
is cancelled and a fresh timer for this session is armed, and the session is
merged with the new QR payload — whether or not the durable write succeeds. -/
theorem handleQrCode_found (dbOk : Bool) (st : ServiceState) (sid qr : String)
    (now : Nat) (s : Session) (h : findSession st sid = some s) :
    (handleQrCode dbOk st sid qr now).nextTimerId = st.nextTimerId + 1 ∧
    (handleQrCode dbOk st sid qr now).activeTimers
      = (match s.qrTimeout with
          | some tid => st.activeTimers.filter (fun p => p.1 != tid)
          | none => st.activeTimers) ++ [(st.nextTimerId, sid)] ∧
    findSession (handleQrCode dbOk st sid qr now) sid
      = some (applyUpdates s (SessionUpdates.mk (some Status.pending) none
          (some (some qr)) (some now) (some (some now)) (some (some st.nextTimerId)))) := by
  cases hqt : s.qrTimeout with
  | none =>
    have hf3 : findSession (updateSession
        { st with nextTimerId := st.nextTimerId + 1
                  activeTimers := st.activeTimers ++ [(st.nextTimerId, sid)] } sid
        (SessionUpdates.mk (some Status.pending) none (some (some qr)) (some now)
          (some (some now)) (some (some st.nextTimerId)))) sid
        = some (applyUpdates s (SessionUpdates.mk (some Status.pending) none
            (some (some qr)) (some now) (some (some now)) (some (some st.nextTimerId)))) := by
      rw [findSession_updateSession, findSession_mk]
      have h2 : st.sessions.find? (fun x => x.id == sid) = some s := h
      rw [h2]
      rfl
    unfold handleQrCode
    rw [h]
    dsimp only
    rw [hqt]
    dsimp only
    unfold persistSession
    dsimp only
    rw [hf3]
    cases dbOk with
    | false =>
      rw [if_neg Bool.false_ne_true]
      dsimp only
      refine ⟨?_, ?_, hf3⟩
      · rw [updateSession_nextTimerId]
      · rw [updateSession_activeTimers]
    | true =>
      rw [if_pos rfl]
      dsimp only
      refine ⟨?_, ?_, ?_⟩
      · rw [sendToSession_nextTimerId, dbWrite_nextTimerId, updateSession_nextTimerId]
      · rw [sendToSession_activeTimers, dbWrite_activeTimers, updateSession_activeTimers]
      · rw [findSession_sendToSession, findSession_dbWrite, hf3]
  | some tid =>
    have hf3 : findSession (updateSession
        { st with nextTimerId := st.nextTimerId + 1
                  activeTimers := st.activeTimers.filter (fun p => p.1 != tid)
                    ++ [(st.nextTimerId, sid)] } sid
        (SessionUpdates.mk (some Status.pending) none (some (some qr)) (some now)
          (some (some now)) (some (some st.nextTimerId)))) sid
        = some (applyUpdates s (SessionUpdates.mk (some Status.pending) none
            (some (some qr)) (some now) (some (some now)) (some (some st.nextTimerId)))) := by
      rw [findSession_updateSession, findSession_mk]
      have h2 : st.sessions.find? (fun x => x.id == sid) = some s := h
      rw [h2]
      rfl
    unfold handleQrCode
    rw [h]
    dsimp only
    rw [hqt]
    dsimp only
    unfold persistSession
    dsimp only
    rw [hf3]
    cases dbOk with
    | false =>
      rw [if_neg Bool.false_ne_true]
      dsimp only
      refine ⟨?_, ?_, hf3⟩
      · rw [updateSession_nextTimerId]
      · rw [updateSession_activeTimers]
    | true =>
      rw [if_pos rfl]
      dsimp only
      refine ⟨?_, ?_, ?_⟩
      · rw [sendToSession_nextTimerId, dbWrite_nextTimerId, updateSession_nextTimerId]
      · rw [sendToSession_activeTimers, dbWrite_activeTimers, updateSession_activeTimers]
      · rw [findSession_sendToSession, findSession_dbWrite, hf3]

/-! ### Claim theorems -/

/-- Claim C6: for every session in state pending or authenticated, processing
an auth_failure event leaves the session's status, phone number, QR code and
membership in the session table unchanged — the session is notified of the
failure but never torn down or removed. -/
theorem c6_auth_failure_preserves_session (st : ServiceState) (sid msg : String)
    (s : Session) (h : findSession st sid = some s)
    (hs : s.status = Status.pending ∨ s.status = Status.authenticated) :
    (handleAuthFailure st sid msg).sessions = st.sessions ∧
    findSession (handleAuthFailure st sid msg) sid = some s := by
  unfold handleAuthFailure
  exact ⟨sendToSession_sessions st sid _, by rw [findSession_sendToSession]; exact h⟩

def sC6 : Session :=
  { id := "s1", ws := some 1, client := 0, clientId := "c1", status := .pending
    phoneNumber := none, qrCode := some "Q", lastActive := 0
    qrGeneratedAt := some 0, qrTimeout := some 0 }

def stC6 : ServiceState :=
  { sessions := [sC6], client := some 0, nextClientId := 1, nextTimerId := 1
    activeTimers := [(0, "s1")], destroyed := [], dbWrites := []
    hookRegistered := true, notifyCount := 0, sent := [], openConns := [1] }

/-- Witness for C6 at a concrete pending session. -/
theorem c6_witness :
    (handleAuthFailure stC6 "s1" "bad").sessions = stC6.sessions ∧
    findSession (handleAuthFailure stC6 "s1" "bad") "s1" = some sC6 :=
  c6_auth_failure_preserves_session stC6 "s1" "bad" sC6 (by decide) (Or.inl rfl)

/-- Claim C9: for every session id present in the table and every update
object, updateSession performs a structural merge: the matching session keeps
the previous values of every field the update does not mention, and every
other session of the table is left unchanged (an update of lastActive never
clobbers qrCode and vice versa). -/
theorem c9_updateSession_structural_merge (st : ServiceState) (sid : String)
    (u : SessionUpdates) :
    ((updateSession st sid u).sessions.length = st.sessions.length) ∧
    (∀ s, s ∈ st.sessions → s.id ≠ sid → s ∈ (updateSession st sid u).sessions) ∧
    (∀ s, s ∈ st.sessions → s.id = sid →
      ∃ s', s' ∈ (updateSession st sid u).sessions ∧ s'.id = s.id ∧ s'.ws = s.ws ∧
        s'.client = s.client ∧ s'.clientId = s.clientId ∧
        (u.status = none → s'.status = s.status) ∧
        (u.phoneNumber = none → s'.phoneNumber = s.phoneNumber) ∧
        (u.qrCode = none → s'.qrCode = s.qrCode) ∧
        (u.lastActive = none → s'.lastActive = s.lastActive) ∧
        (u.qrGeneratedAt = none → s'.qrGeneratedAt = s.qrGeneratedAt) ∧
        (u.qrTimeout = none → s'.qrTimeout = s.qrTimeout)) := by
  refine ⟨?_, ?_, ?_⟩
  · rw [updateSession_sessions, List.length_map]
  · intro s hs hne
    rw [updateSession_sessions]
    have he : (fun x => if x.id == sid then applyUpdates x u else x) s = s := by
      have : (s.id == sid) = false := by simpa using hne
      simp [this]
    exact he ▸ List.mem_map_of_mem _ hs
  · intro s hs he
    refine ⟨applyUpdates s u, ?_, rfl, rfl, rfl, rfl, ?_, ?_, ?_, ?_, ?_, ?_⟩
    · rw [updateSession_sessions]
      have hx : (fun x => if x.id == sid then applyUpdates x u else x) s
          = applyUpdates s u := by
        have : (s.id == sid) = true := by simpa using he
        simp [this]
      exact hx ▸ List.mem_map_of_mem _ hs
    all_goals (intro hn; simp [applyUpdates, hn])

def sC9 : Session :=
  { id := "s1", ws := some 1, client := 0, clientId := "c1", status := .pending
    phoneNumber := none, qrCode := some "Q", lastActive := 0
    qrGeneratedAt := some 0, qrTimeout := some 0 }

def stC9 : ServiceState :=
  { sessions := [sC9], client := some 0, nextClientId := 1, nextTimerId := 1
    activeTimers := [(0, "s1")], destroyed := [], dbWrites := []
    hookRegistered := true, notifyCount := 0, sent := [], openConns := [1] }

/-- Witness for C9: an update that only mentions lastActive keeps every
other field of the matching session. -/
theorem c9_witness :
    ∃ s', s' ∈ (updateSession stC9 "s1" { lastActive := some 9 }).sessions ∧
      s'.id = sC9.id ∧ s'.ws = sC9.ws ∧ s'.client = sC9.client ∧
      s'.clientId = sC9.clientId ∧
      (({ lastActive := some 9 } : SessionUpdates).status = none →
        s'.status = sC9.status) ∧
      (({ lastActive := some 9 } : SessionUpdates).phoneNumber = none →
        s'.phoneNumber = sC9.phoneNumber) ∧
      (({ lastActive := some 9 } : SessionUpdates).qrCode = none →
        s'.qrCode = sC9.qrCode) ∧
      (({ lastActive := some 9 } : SessionUpdates).lastActive = none →
        s'.lastActive = sC9.lastActive) ∧
      (({ lastActive := some 9 } : SessionUpdates).qrGeneratedAt = none →
        s'.qrGeneratedAt = sC9.qrGeneratedAt) ∧
      (({ lastActive := some 9 } : SessionUpdates).qrTimeout = none →
        s'.qrTimeout = sC9.qrTimeout) :=
  (c9_updateSession_structural_merge stC9 "s1" { lastActive := some 9 }).2.2 sC9
    (by decide) rfl

/-- Claim C10: for a sessionId absent from the session table, updateSession
leaves the whole service state unchanged except that it still invokes the
registered onSessionUpdate hook — a no-op on state that still triggers a
broadcast to observers. -/
theorem c10_update_absent_session (st : ServiceState) (sid : String) (u : SessionUpdates)
    (h : ∀ s, s ∈ st.sessions → s.id ≠ sid) (hreg : st.hookRegistered = true) :
    updateSession st sid u = { st with notifyCount := st.notifyCount + 1 } := by
  have hmap : st.sessions.map (fun s => if s.id == sid then applyUpdates s u else s)
      = st.sessions := by
    conv_rhs => rw [← List.map_id st.sessions]
    apply List.map_congr_left
    intro a ha
    have hb : (a.id == sid) = false := by simpa using h a ha
    simp [hb]
  unfold updateSession notifySessionUpdate
  rw [hmap]
  simp [hreg]

def sC10 : Session :=
  { id := "s1", ws := some 1, client := 0, clientId := "c1", status := .ready
    phoneNumber := some "555", qrCode := none, lastActive := 0
    qrGeneratedAt := none, qrTimeout := none }

def stC10 : ServiceState :=
  { sessions := [sC10], client := some 0, nextClientId := 1, nextTimerId := 0
    activeTimers := [], destroyed := [], dbWrites := []
    hookRegistered := true, notifyCount := 3, sent := [], openConns := [1] }

/-- Witness for C10: updating an id that is not in the table. -/
theorem c10_witness :
    updateSession stC10 "ghost" { lastActive := some 9 }
      = { stC10 with notifyCount := stC10.notifyCount + 1 } :=
  c10_update_absent_session stC10 "ghost" { lastActive := some 9 }
    (by decide) rfl

/-- Claim C8 (code behavior at the failing input): during six consecutive
connection failures the coded `onclose` logic reconnects every time with the
constant base delay of 5000 ms and never emits the terminal give-up signal,
because `connectWebSocket` re-declares `reconnectAttempts = 0` on every
call, so no close event ever observes a counter value that reaches
`maxReconnectAttempts`; the give-up branch itself is present (a closure
counter of 5 would produce it) but unreachable across reconnects. -/
theorem c8_reconnect_counter_reset :
    simulateCloses 6 = List.replicate 6 (CloseOutcome.reconnect 5000 1) ∧
    (simulateCloses 6).count CloseOutcome.giveUp = 0 ∧
    onSocketClose 5 = CloseOutcome.giveUp := by
  decide

/-- Claim C7: a malformed inbound frame, or one whose action is not
recognized, is answered with an error event to the sending observer only;
the connection is not closed, the service state (hence the session table)
is unchanged, and no other observer receives anything or is closed. -/
theorem c7_protocol_errors (initOk dbOk : Bool) (st : ServiceState) (w now : Nat)
    (a : String) (hw : w ∈ st.openConns) (ha : a ≠ "create_session") :
    (wsOnMessage initOk dbOk st w Inbound.malformed now).state = st ∧
    (wsOnMessage initOk dbOk st w Inbound.malformed now).replies
      = [(w, OutMsg.errorMsg "Invalid message format")] ∧
    (wsOnMessage initOk dbOk st w Inbound.malformed now).closed = [] ∧
    (wsOnMessage initOk dbOk st w (Inbound.parsed a) now).state = st ∧
    (wsOnMessage initOk dbOk st w (Inbound.parsed a) now).replies
      = [(w, OutMsg.errorMsg "Unknown action")] ∧
    (wsOnMessage initOk dbOk st w (Inbound.parsed a) now).closed = [] := by
  have hb : (a == "create_session") = false := by simpa using ha
  unfold wsOnMessage sendErrorTo
  simp [hb, hw]

def stC7 : ServiceState :=
  { sessions := [], client := none, nextClientId := 0, nextTimerId := 0
    activeTimers := [], destroyed := [], dbWrites := []
    hookRegistered := false, notifyCount := 0, sent := [], openConns := [3] }

/-- Witness for C7 at a concrete open connection and unknown action. -/
theorem c7_witness :
    (wsOnMessage true true stC7 3 Inbound.malformed 0).state = stC7 ∧
    (wsOnMessage true true stC7 3 Inbound.malformed 0).replies
      = [(3, OutMsg.errorMsg "Invalid message format")] ∧
    (wsOnMessage true true stC7 3 Inbound.malformed 0).closed = [] ∧
    (wsOnMessage true true stC7 3 (Inbound.parsed "frobnicate") 0).state = stC7 ∧
    (wsOnMessage true true stC7 3 (Inbound.parsed "frobnicate") 0).replies
      = [(3, OutMsg.errorMsg "Unknown action")] ∧
    (wsOnMessage true true stC7 3 (Inbound.parsed "frobnicate") 0).closed = [] :=
  c7_protocol_errors true true stC7 3 0 "frobnicate" (by decide) (by decide)

def sC1 : Session :=
  { id := "s1", ws := some 1, client := 0, clientId := "c1", status := .pending
    phoneNumber := none, qrCode := some "QR1", lastActive := 0
    qrGeneratedAt := some 0, qrTimeout := some 0 }

def stC1 : ServiceState :=
  { sessions := [sC1], client := some 0, nextClientId := 1, nextTimerId := 1
    activeTimers := [(0, "s1")], destroyed := [], dbWrites := []
    hookRegistered := true, notifyCount := 0, sent := [], openConns := [1] }

/-- Claim C1 counterexample: processing the authenticated event for a pending
session that holds a QR code yields a session whose status is authenticated
while its qrCode is still set, and the QR-expiry timer is still armed — so
the invariant "qrCode non-empty only when status is pending" is violated and
the session does not lose its QR code. -/
theorem c1_counterexample :
    (findSession (handleAuthenticated true stC1 "s1" (some "777") "w" 5) "s1").map
        (fun s => (s.status, s.qrCode))
      = some (Status.authenticated, some "QR1") ∧
    (handleAuthenticated true stC1 "s1" (some "777") "w" 5).activeTimers = [(0, "s1")] := by
  decide

/-- Claim C1 (amended): handleAuthenticated sets the session's status to
authenticated but leaves its qrCode and qrTimeout fields unchanged and
cancels no timer; the QR payload is cleared only when the (never-cancelled)
expiry timer later fires or a new QR overwrites it, so the qrCode-only-when-
pending invariant does not hold right after the authenticated transition. -/
theorem c1_authenticated_keeps_qr (st : ServiceState) (sid : String)
    (phone : Option String) (ser : String) (now : Nat) (s : Session)
    (h : findSession st sid = some s) :
    ∃ s', findSession (handleAuthenticated true st sid phone ser now) sid = some s' ∧
      s'.status = Status.authenticated ∧ s'.qrCode = s.qrCode ∧
      s'.qrTimeout = s.qrTimeout ∧
      (handleAuthenticated true st sid phone ser now).activeTimers = st.activeTimers := by
  unfold handleAuthenticated
  rw [persistSession_found_true st _ s h]
  dsimp only
  refine ⟨applyUpdates s
      (SessionUpdates.mk (some Status.authenticated) (some phone) none (some now) none none),
    ?_, rfl, rfl, rfl, ?_⟩
  · rw [findSession_sendToSession, findSession_updateSession,
      findSession_sessionsEq _ st sid (dbWrite_sessions st _), h]
    rfl
  · rw [sendToSession_activeTimers, updateSession_activeTimers, dbWrite_activeTimers]

/-- Witness for the amended C1 at the concrete state of the counterexample. -/
theorem c1_witness :
    ∃ s', findSession (handleAuthenticated true stC1 "s1" (some "777") "w" 5) "s1"
        = some s' ∧
      s'.status = Status.authenticated ∧ s'.qrCode = sC1.qrCode ∧
      s'.qrTimeout = sC1.qrTimeout ∧
      (handleAuthenticated true stC1 "s1" (some "777") "w" 5).activeTimers
        = stC1.activeTimers :=
  c1_authenticated_keeps_qr stC1 "s1" (some "777") "w" 5 sC1 (by decide)

def sC3 : Session :=
  { id := "s1", ws := some 1, client := 0, clientId := "c1", status := .pending
    phoneNumber := none, qrCode := none, lastActive := 0
    qrGeneratedAt := none, qrTimeout := none }

def stC3 : ServiceState :=
  { sessions := [sC3], client := some 0, nextClientId := 1, nextTimerId := 0
    activeTimers := [], destroyed := [], dbWrites := []
    hookRegistered := true, notifyCount := 0, sent := [], openConns := [1] }

/-- Claim C3 counterexample: when the durable write fails, processing the
authenticated event leaves the in-memory session in its old pending state —
the persistence failure does prevent the in-memory status update, and the
whole service state is untouched. -/
theorem c3_counterexample :
    (findSession (handleAuthenticated false stC3 "s1" (some "777") "w" 5) "s1").map
        Session.status = some Status.pending ∧
    handleAuthenticated false stC3 "s1" (some "777") "w" 5 = stC3 := by
  decide

/-- Claim C3 (amended): for the qr event the in-memory update precedes the
durable write, so a persistence failure cannot undo it (the session still
holds the new QR and pending status); but for the authenticated and ready
events the handler awaits the write before touching memory, so a persistence
failure prevents the in-memory status update entirely — the service state is
returned unchanged. -/
theorem c3_persist_failure_semantics (st : ServiceState) (sid qr ser : String)
    (phone phone2 : Option String) (now : Nat) (s : Session)
    (h : findSession st sid = some s) :
    (∃ s', findSession (handleQrCode false st sid qr now) sid = some s' ∧
      s'.qrCode = some qr ∧ s'.status = Status.pending) ∧
    handleAuthenticated false st sid phone ser now = st ∧
    handleReady false st sid phone2 now = st := by
  refine ⟨?_, ?_, ?_⟩
  · exact ⟨applyUpdates s (SessionUpdates.mk (some Status.pending) none
        (some (some qr)) (some now) (some (some now)) (some (some st.nextTimerId))),
      (handleQrCode_found false st sid qr now s h).2.2, rfl, rfl⟩
  · unfold handleAuthenticated
    rw [persistSession_found_false st _ s h]
  · unfold handleReady
    rw [persistSession_found_false st _ s h]

/-- Witness for the amended C3 at a concrete pending session. -/
theorem c3_witness :
    (∃ s', findSession (handleQrCode false stC3 "s1" "QRX" 7) "s1" = some s' ∧
      s'.qrCode = some "QRX" ∧ s'.status = Status.pending) ∧
    handleAuthenticated false stC3 "s1" (some "777") "w" 7 = stC3 ∧
    handleReady false stC3 "s1" (some "777") 7 = stC3 :=
  c3_persist_failure_semantics stC3 "s1" "QRX" "w" (some "777") (some "777") 7 sC3
    (by decide)

/-- Shape of one `cleanupSession` call: the session is gone from the table;
if the table is still non-empty no adapter destroy happens at all, and if
the table became empty only the service-wide current client (when set) is
destroyed, once. -/
theorem cleanupSession_shape (st : ServiceState) (sid : String) :
    ((cleanupSession st sid).sessions.all (fun s => s.id != sid)) = true ∧
    ((cleanupSession st sid).sessions ≠ [] →
      (cleanupSession st sid).destroyed = st.destroyed ∧
      (cleanupSession st sid).client = st.client) ∧
    ((cleanupSession st sid).sessions = [] →
      (cleanupSession st sid).destroyed = st.destroyed ++ st.client.toList ∧
      (cleanupSession st sid).client = none) := by
  unfold cleanupSession safeDestroyClient
  cases hb : (findSession st sid).bind Session.qrTimeout with
  | none =>
    dsimp only
    by_cases hemp : (st.sessions.filter (fun s => s.id != sid)).isEmpty = true
    · rw [if_pos hemp]
      have hnil : st.sessions.filter (fun s => s.id != sid) = [] :=
        List.isEmpty_iff.mp hemp
      cases hc : st.client with
      | none =>
        dsimp only
        exact ⟨all_filter_self _ _, fun hne => absurd hnil hne, fun _ => ⟨by simp, rfl⟩⟩
      | some c =>
        dsimp only
        exact ⟨all_filter_self _ _, fun hne => absurd hnil hne, fun _ => ⟨rfl, rfl⟩⟩
    · rw [if_neg hemp]
      refine ⟨all_filter_self _ _, fun _ => ⟨rfl, rfl⟩, fun hnil => ?_⟩
      exact absurd (List.isEmpty_iff.mpr hnil) hemp
  | some tid =>
    dsimp only
    by_cases hemp : (st.sessions.filter (fun s => s.id != sid)).isEmpty = true
    · rw [if_pos hemp]
      have hnil : st.sessions.filter (fun s => s.id != sid) = [] :=
        List.isEmpty_iff.mp hemp
      cases hc : st.client with
      | none =>
        dsimp only
        exact ⟨all_filter_self _ _, fun hne => absurd hnil hne, fun _ => ⟨by simp, rfl⟩⟩
      | some c =>
        dsimp only
        exact ⟨all_filter_self _ _, fun hne => absurd hnil hne, fun _ => ⟨rfl, rfl⟩⟩
    · rw [if_neg hemp]
      refine ⟨all_filter_self _ _, fun _ => ⟨rfl, rfl⟩, fun hnil => ?_⟩
      exact absurd (List.isEmpty_iff.mpr hnil) hemp

def sC2a : Session :=
  { id := "sA", ws := some 1, client := 0, clientId := "cA", status := .pending
    phoneNumber := none, qrCode := none, lastActive := 0
    qrGeneratedAt := none, qrTimeout := none }

def sC2b : Session :=
  { id := "sB", ws := some 2, client := 1, clientId := "cB", status := .ready
    phoneNumber := some "555", qrCode := none, lastActive := 0
    qrGeneratedAt := none, qrTimeout := none }

def stC2 : ServiceState :=
  { sessions := [sC2a, sC2b], client := some 1, nextClientId := 2, nextTimerId := 0
    activeTimers := [], destroyed := [], dbWrites := []
    hookRegistered := true, notifyCount := 0, sent := [], openConns := [1, 2] }

/-- Claim C2 counterexample: with two live sessions, a disconnected event for
sA removes sA from the table but invokes destroy on no adapter at all — in
particular sA's own adapter (id 0) is never destroyed, refuting
"destroy invoked exactly once". -/
theorem c2_counterexample :
    ((handleDisconnected stC2 "sA" "gone").sessions.all (fun s => s.id != "sA")) = true ∧
    (handleDisconnected stC2 "sA" "gone").destroyed = [] ∧
    (handleDisconnected stC2 "sA" "gone").destroyed.count 0 = 0 := by
  decide

/-- Claim C2 (amended): a disconnected event for S always removes S from the
session table, but S's own adapter is not destroyed by the removal: no
destroy happens at all while other sessions remain, and when the table
becomes empty the service destroys its single service-wide current client
(the most recently registered adapter), at most once. -/
theorem c2_disconnect_removes_session (st : ServiceState) (sid reason : String) :
    ((handleDisconnected st sid reason).sessions.all (fun s => s.id != sid)) = true ∧
    ((handleDisconnected st sid reason).sessions ≠ [] →
      (handleDisconnected st sid reason).destroyed = st.destroyed ∧
      (handleDisconnected st sid reason).client = st.client) ∧
    ((handleDisconnected st sid reason).sessions = [] →
      (handleDisconnected st sid reason).destroyed = st.destroyed ++ st.client.toList ∧
      (handleDisconnected st sid reason).client = none) := by
  unfold handleDisconnected
  have h := cleanupSession_shape (sendToSession st sid (.disconnectedMsg sid reason)) sid
  rw [sendToSession_destroyed, sendToSession_client] at h
  exact h

/-- Witness for the amended C2 at the two-session counterexample state. -/
theorem c2_witness :
    ((handleDisconnected stC2 "sA" "gone").sessions.all (fun s => s.id != "sA")) = true ∧
    ((handleDisconnected stC2 "sA" "gone").sessions ≠ [] →
      (handleDisconnected stC2 "sA" "gone").destroyed = stC2.destroyed ∧
      (handleDisconnected stC2 "sA" "gone").client = stC2.client) ∧
    ((handleDisconnected stC2 "sA" "gone").sessions = [] →
      (handleDisconnected stC2 "sA" "gone").destroyed
        = stC2.destroyed ++ stC2.client.toList ∧
      (handleDisconnected stC2 "sA" "gone").client = none) :=
  c2_disconnect_removes_session stC2 "sA" "gone"

/-- Claim C4: if a second QR (generation 2) arrives before generation 1's
40-second timer fires, generation 1's timer is cancelled by the clearTimeout
in handleQrCode, so firing it later is impossible (it is no longer armed and
firing it changes nothing) and the stored QR remains generation 2's; only the
latest generation's timer remains armed for this session. -/
theorem c4_superseded_timer_never_clears (dbOk1 dbOk2 : Bool) (st : ServiceState)
    (sid qr1 qr2 : String) (now1 now2 : Nat) (s : Session)
    (h : findSession st sid = some s) :
    ((handleQrCode dbOk2 (handleQrCode dbOk1 st sid qr1 now1) sid qr2 now2).activeTimers.all
        (fun p => p.1 != st.nextTimerId)) = true ∧
    fireQrTimer (handleQrCode dbOk2 (handleQrCode dbOk1 st sid qr1 now1) sid qr2 now2)
        st.nextTimerId
      = handleQrCode dbOk2 (handleQrCode dbOk1 st sid qr1 now1) sid qr2 now2 ∧
    (findSession (handleQrCode dbOk2 (handleQrCode dbOk1 st sid qr1 now1) sid qr2 now2)
        sid).map Session.qrCode = some (some qr2) := by
  obtain ⟨hA1, hA2, hA3⟩ := handleQrCode_found dbOk1 st sid qr1 now1 s h
  obtain ⟨hB1, hB2, hB3⟩ := handleQrCode_found dbOk2 (handleQrCode dbOk1 st sid qr1 now1)
    sid qr2 now2 _ hA3
  have hB2' : (handleQrCode dbOk2 (handleQrCode dbOk1 st sid qr1 now1) sid qr2 now2).activeTimers
      = (handleQrCode dbOk1 st sid qr1 now1).activeTimers.filter
          (fun p => p.1 != st.nextTimerId)
        ++ [((handleQrCode dbOk1 st sid qr1 now1).nextTimerId, sid)] := hB2
  rw [hA1] at hB2'
  have hall : ((handleQrCode dbOk2 (handleQrCode dbOk1 st sid qr1 now1) sid qr2
      now2).activeTimers.all (fun p => p.1 != st.nextTimerId)) = true := by
    rw [hB2', List.all_append, all_filter_self]
    simp
  refine ⟨hall, ?_, ?_⟩
  · have hnone : (handleQrCode dbOk2 (handleQrCode dbOk1 st sid qr1 now1) sid qr2
        now2).activeTimers.find? (fun p => p.1 == st.nextTimerId) = none := by
      rw [List.find?_eq_none]
      intro x hx
      have h5 := List.all_eq_true.mp hall x hx
      simpa using h5
    unfold fireQrTimer
    rw [hnone]
  · rw [hB3]
    rfl

def sC4 : Session :=
  { id := "s1", ws := some 1, client := 0, clientId := "c1", status := .pending
    phoneNumber := none, qrCode := none, lastActive := 0
    qrGeneratedAt := none, qrTimeout := none }

def stC4 : ServiceState :=
  { sessions := [sC4], client := some 0, nextClientId := 1, nextTimerId := 0
    activeTimers := [], destroyed := [], dbWrites := []
    hookRegistered := true, notifyCount := 0, sent := [], openConns := [1] }

/-- Witness for C4: two QR generations at a concrete state; generation 1's
timer (id 0) is disarmed and firing it leaves generation 2's QR intact. -/
theorem c4_witness :
    ((handleQrCode true (handleQrCode true stC4 "s1" "QR1" 1) "s1" "QR2" 2).activeTimers.all
        (fun p => p.1 != stC4.nextTimerId)) = true ∧
    fireQrTimer (handleQrCode true (handleQrCode true stC4 "s1" "QR1" 1) "s1" "QR2" 2)
        stC4.nextTimerId
      = handleQrCode true (handleQrCode true stC4 "s1" "QR1" 1) "s1" "QR2" 2 ∧
    (findSession (handleQrCode true (handleQrCode true stC4 "s1" "QR1" 1) "s1" "QR2" 2)
        "s1").map Session.qrCode = some (some "QR2") :=
  c4_superseded_timer_never_clears true true stC4 "s1" "QR1" "QR2" 1 2 sC4 (by decide)

def stC5 : ServiceState :=
  { sessions := [], client := none, nextClientId := 0, nextTimerId := 0
    activeTimers := [], destroyed := [], dbWrites := []
    hookRegistered := false, notifyCount := 0, sent := [], openConns := [] }

/-- Claim C5 counterexample: two distinct successive createNewSession calls
that observe the same Date.now() millisecond (5) both return the same id
"session_5" — ids are not unique. -/
theorem c5_counterexample :
    (createNewSession true true stC5 1 5).2 = some "session_5" ∧
    (createNewSession true true (createNewSession true true stC5 1 5).1 2 5).2
      = some "session_5" := by
  decide

/-- A successful createNewSession call returns exactly the id minted from the
timestamp it observed. -/
theorem createNewSession_id (initOk dbOk : Bool) (st : ServiceState) (w now : Nat)
    (s : String) (h : (createNewSession initOk dbOk st w now).2 = some s) :
    s = sessionIdOf now := by
  unfold createNewSession at h
  dsimp only at h
  cases initOk with
  | false =>
    rw [if_neg Bool.false_ne_true] at h
    simp at h
  | true =>
    rw [if_pos rfl] at h
    split at h
    · exact (Option.some.inj h).symm
    · simp at h

/-- Claim C5 (amended): session ids minted by two createNewSession calls are
distinct whenever the two calls observe distinct Date.now() timestamps; ids
can only collide when both calls fall in the same millisecond. -/
theorem c5_distinct_times_distinct_ids (i1 i2 d1 d2 : Bool) (stA stB : ServiceState)
    (w1 w2 t1 t2 : Nat) (s1 s2 : String) (ht : t1 ≠ t2)
    (h1 : (createNewSession i1 d1 stA w1 t1).2 = some s1)
    (h2 : (createNewSession i2 d2 stB w2 t2).2 = some s2) :
    s1 ≠ s2 := by
  rw [createNewSession_id i1 d1 stA w1 t1 s1 h1, createNewSession_id i2 d2 stB w2 t2 s2 h2]
  intro he
  exact ht (sessionIdOf_inj t1 t2 he)

/-- Witness for the amended C5: timestamps 5 and 6 give distinct ids. -/
theorem c5_witness : ("session_5" : String) ≠ "session_6" :=
  c5_distinct_times_distinct_ids true true true true stC5 stC5 1 2 5 6
    "session_5" "session_6" (by decide) (by decide) (by decide)
